import Mathlib

/-!
Verification of the carousel page-selection and image-placement logic of
`build_carousel_from_template.py` (function `create_carousel_from_template`,
the "Carousel Pattern Selector" of the specification).

The embedding covers the per-page loop of `create_carousel_from_template`
(lines 122-200 of the source): the template/visible-range decision chain and
the slot-to-image placement loop.  Rendering side effects (slide creation,
background fill, borders, gradient overlay rectangles) and the unused local
variable `center_position_in_visible` are not modelled: they neither produce
data consumed by later iterations nor influence the selection or placement.
A Python `IndexError` (raised when `template_patterns[template_idx]` is
evaluated on an empty template list) is modelled as `Except.error`; it aborts
the whole computation, as an uncaught exception does in the source.
-/

/-- One picture slot of a template pattern: the position/size rectangle of a
picture shape (`left_inches`, `top_inches`, `width_inches`, `height_inches`)
as extracted by `analyze_all_template_slides`.  The numeric geometry is
carried along but never inspected by the selection logic. -/
structure PictureSlot where
  left_inches : Rat
  top_inches : Rat
  width_inches : Rat
  height_inches : Rat
deriving DecidableEq, Repr, Inhabited

/-- A template pattern: the picture slots of one template slide, already
sorted left-to-right by `analyze_all_template_slides`. -/
abbrev TemplatePattern := List PictureSlot

/-- Python `range(a, b)`, as the list `[a, a+1, ..., b-1]` (empty if `b ≤ a`).
All ranges produced by the selector have non-negative endpoints, so `Nat`
endpoints are faithful. -/
def pyRange (a b : Nat) : List Nat := List.range' a (b - a)

/-- One generated carousel page: the centered source-image index, the chosen
template pattern index, the visible window of source-image indices, and the
placements actually performed — `(slot_index, image_index)` pairs, one for
each `add_picture` call of the placement loop. -/
structure CarouselPage where
  center_index : Nat
  template_index : Nat
  visible_range : List Nat
  placements : List (Nat × Nat)
deriving DecidableEq, Repr, Inhabited

/-- The template/visible-range decision chain (source lines 151-170), for
`K = len(template_patterns)`, `N = total_pages`, `c = center_idx`.
Returns `(template_idx, lo, hi)` with `visible_range = range(lo, hi)`.
Python's `max(0, center_idx - 2)` is truncated subtraction `c - 2` on `Nat`;
Python's `total_pages - 2` is negative only for `N < 2`, where the guards
`center_idx < total_pages - 2` and `center_idx == total_pages - 2` are
reached only with `c ≥ 1` (the `c = 0` branch fires first), matching the
truncated forms below on every reachable input. -/
def selectTemplate (K N c : Nat) : Nat × Nat × Nat :=
  if c = 0 then
    (0, 0, min 3 N)
  else if c = 1 ∧ 1 < K then
    (1, 0, min 4 N)
  else if 2 ≤ c ∧ c < N - 2 then
    (min 2 (K - 1), c - 2, min (c + 3) N)
  else if c = N - 2 ∧ 3 < K then
    (min 3 (K - 1), c - 2, N)
  else
    (min (K - 1) 2, c - 2, N)

/-- The placement loop (source lines 182-200): iterate over the chosen
pattern's slots with index `picIdx`; `break` once `picIdx` reaches the end of
`visible` (`visible[picIdx]? = none`); `continue` (skip) when the image index
is out of bounds (`numImages ≤ idx`; the source's `idx < 0` arm of the guard
cannot fire, as range elements are non-negative); otherwise place the image,
recorded as the pair `(picIdx, idx)`. -/
def placeImages (slots : List PictureSlot) (picIdx : Nat) (visible : List Nat)
    (numImages : Nat) : List (Nat × Nat) :=
  match slots with
  | [] => []
  | _ :: rest =>
    match visible[picIdx]? with
    | none => []
    | some idx =>
      if numImages ≤ idx then placeImages rest (picIdx + 1) visible numImages
      else (picIdx, idx) :: placeImages rest (picIdx + 1) visible numImages

/-- Build the page for one `center_idx` (one iteration of the loop at source
line 127).  Evaluating `template_patterns[template_idx]` on an out-of-range
index raises `IndexError` in Python; this is the `Except.error` case. -/
def buildPage (patterns : List TemplatePattern) (numImages c : Nat) :
    Except String CarouselPage :=
  let r := selectTemplate patterns.length numImages c
  match patterns[r.1]? with
  | none => Except.error "list index out of range"
  | some slots =>
    Except.ok
      { center_index := c
        template_index := r.1
        visible_range := pyRange r.2.1 r.2.2
        placements := placeImages slots 0 (pyRange r.2.1 r.2.2) numImages }

/-- The page loop: pages are produced in order of `center_idx`; an uncaught
`IndexError` aborts the remaining iterations (no result is returned). -/
def buildPages (patterns : List TemplatePattern) (numImages : Nat) :
    List Nat → Except String (List CarouselPage)
  | [] => Except.ok []
  | c :: rest =>
    match buildPage patterns numImages c with
    | Except.error e => Except.error e
    | Except.ok p =>
      match buildPages patterns numImages rest with
      | Except.error e => Except.error e
      | Except.ok ps => Except.ok (p :: ps)

/-- The selector core of `create_carousel_from_template`: one page per source
image, iterating `center_idx` over `range(total_pages)` with
`total_pages = len(slide_images)`. -/
def create_carousel_from_template (template_patterns : List TemplatePattern)
    (slide_images : List String) : Except String (List CarouselPage) :=
  buildPages template_patterns slide_images.length
    (List.range slide_images.length)

/-- The page produced for center index `c` when the template lookup succeeds
(pure description of `buildPage`'s success case). -/
def pageAt (patterns : List TemplatePattern) (numImages c : Nat) : CarouselPage :=
  let r := selectTemplate patterns.length numImages c
  { center_index := c
    template_index := r.1
    visible_range := pyRange r.2.1 r.2.2
    placements := placeImages (patterns.getD r.1 []) 0 (pyRange r.2.1 r.2.2) numImages }

/-- The five-row selection-policy table exactly as the specification states it
(spec §4.1), over integers, applied first-match from top to bottom; returns
`(template_index, range_lo, range_hi)` with `visible_range = [lo, hi)`. -/
def specPolicyRow (K N c : Int) : Int × Int × Int :=
  if c = 0 then
    (0, 0, min 3 N)
  else if c = 1 ∧ 2 ≤ K then
    (1, 0, min 4 N)
  else if 2 ≤ c ∧ c < N - 2 then
    (min 2 (K - 1), max 0 (c - 2), min (c + 3) N)
  else if c = N - 2 ∧ 4 ≤ K then
    (min 3 (K - 1), max 0 (c - 2), N)
  else
    (min (K - 1) 2, max 0 (c - 2), N)

/-- A template set shaped like the spec's concrete example: five patterns with
3, 4, 5, 5 and 5 slots (slot geometry is irrelevant to selection). -/
def examplePatterns : List TemplatePattern :=
  [List.replicate 3 default, List.replicate 4 default,
   List.replicate 5 default, List.replicate 5 default, List.replicate 5 default]

/-- The pages produced for `examplePatterns` and five source images. -/
def examplePages : List CarouselPage :=
  [⟨0, 0, [0, 1, 2], [(0, 0), (1, 1), (2, 2)]⟩,
   ⟨1, 1, [0, 1, 2, 3], [(0, 0), (1, 1), (2, 2), (3, 3)]⟩,
   ⟨2, 2, [0, 1, 2, 3, 4], [(0, 0), (1, 1), (2, 2), (3, 3), (4, 4)]⟩,
   ⟨3, 3, [1, 2, 3, 4], [(0, 1), (1, 2), (2, 3), (3, 4)]⟩,
   ⟨4, 2, [2, 3, 4], [(0, 2), (1, 3), (2, 4)]⟩]

/-- Contiguity of a window of indices: each element is the predecessor's
successor. -/
def contiguousList (l : List Nat) : Prop :=
  l.Chain' (fun x y => y = x + 1)

instance (l : List Nat) : Decidable (contiguousList l) := by
  unfold contiguousList
  infer_instance

theorem length_pyRange (a b : Nat) : (pyRange a b).length = b - a := by
  simp [pyRange]

theorem mem_pyRange {i a b : Nat} : i ∈ pyRange a b ↔ a ≤ i ∧ i < b := by
  simp only [pyRange, List.mem_range']
  constructor
  · rintro ⟨j, hj, rfl⟩
    omega
  · intro h
    exact ⟨i - a, by omega⟩

theorem getD_pyRange {a b i : Nat} (h : i < b - a) :
    (pyRange a b).getD i 0 = a + i := by
  have hl : i < (pyRange a b).length := by rwa [length_pyRange]
  rw [List.getD_eq_getElem _ _ hl]
  simp [pyRange]

theorem contiguous_range' (n : Nat) : ∀ s : Nat,
    List.Chain' (fun x y => y = x + 1) (List.range' s n) := by
  induction n with
  | zero => intro s; simp
  | succ m ih =>
    intro s
    rw [List.range'_succ]
    rcases m with _ | k
    · simp
    · rw [List.range'_succ]
      refine List.Chain'.cons rfl ?_
      rw [← List.range'_succ]
      exact ih (s + 1)

theorem contiguous_pyRange (a b : Nat) : contiguousList (pyRange a b) :=
  contiguous_range' (b - a) a

theorem selectTemplate_template_lt {K N c : Nat} (hK : 1 ≤ K) :
    (selectTemplate K N c).1 < K := by
  unfold selectTemplate
  split_ifs <;> dsimp only <;> omega

theorem selectTemplate_template_le3 (K N c : Nat) :
    (selectTemplate K N c).1 ≤ 3 := by
  unfold selectTemplate
  split_ifs <;> dsimp only <;> omega

theorem selectTemplate_range_bounds {K N c : Nat} (hc : c < N) :
    (selectTemplate K N c).2.1 ≤ c ∧ c < (selectTemplate K N c).2.2 ∧
      (selectTemplate K N c).2.2 ≤ N := by
  unfold selectTemplate
  split_ifs <;> dsimp only <;> omega

theorem selectTemplate_width {K N c : Nat} (hK : 1 ≤ K) (hc : c < N)
    (hdeg : ¬(c = 1 ∧ K = 1)) :
    min 3 N ≤ (selectTemplate K N c).2.2 - (selectTemplate K N c).2.1 ∧
      (selectTemplate K N c).2.2 - (selectTemplate K N c).2.1 ≤ 5 := by
  unfold selectTemplate
  split_ifs <;> dsimp only <;> omega

theorem selectTemplate_degenerate {K N c : Nat} (h1 : c = 1) (h2 : K = 1) :
    (selectTemplate K N c).2.1 = 0 ∧ (selectTemplate K N c).2.2 = N := by
  unfold selectTemplate
  split_ifs <;> dsimp only <;> omega

theorem selectTemplate_eq_specPolicyRow {K N c : Nat} (hK : 1 ≤ K) (hc : c < N) :
    ((selectTemplate K N c).1 : Int) = (specPolicyRow K N c).1 ∧
      ((selectTemplate K N c).2.1 : Int) = (specPolicyRow K N c).2.1 ∧
      ((selectTemplate K N c).2.2 : Int) = (specPolicyRow K N c).2.2 := by
  unfold selectTemplate specPolicyRow
  split_ifs <;> refine ⟨?_, ?_, ?_⟩ <;> dsimp only <;> omega

theorem pageAt_center (patterns : List TemplatePattern) (numImages c : Nat) :
    (pageAt patterns numImages c).center_index = c := rfl

theorem pageAt_template (patterns : List TemplatePattern) (numImages c : Nat) :
    (pageAt patterns numImages c).template_index
      = (selectTemplate patterns.length numImages c).1 := rfl

theorem pageAt_visible (patterns : List TemplatePattern) (numImages c : Nat) :
    (pageAt patterns numImages c).visible_range
      = pyRange (selectTemplate patterns.length numImages c).2.1
          (selectTemplate patterns.length numImages c).2.2 := rfl

theorem pageAt_placements_def (patterns : List TemplatePattern) (numImages c : Nat) :
    (pageAt patterns numImages c).placements
      = placeImages (patterns.getD (selectTemplate patterns.length numImages c).1 [])
          0 (pageAt patterns numImages c).visible_range numImages := rfl

theorem buildPage_ok {patterns : List TemplatePattern} {numImages c : Nat}
    (h : 1 ≤ patterns.length) :
    buildPage patterns numImages c = Except.ok (pageAt patterns numImages c) := by
  have ht := selectTemplate_template_lt (K := patterns.length) (N := numImages) (c := c) h
  simp only [buildPage, pageAt]
  rw [List.getElem?_eq_getElem ht, List.getD_eq_getElem _ _ ht]

theorem buildPages_ok {patterns : List TemplatePattern} (h : 1 ≤ patterns.length)
    (numImages : Nat) : ∀ l : List Nat,
    buildPages patterns numImages l = Except.ok (l.map (pageAt patterns numImages))
  | [] => rfl
  | c :: rest => by
    simp only [buildPages, buildPage_ok h, buildPages_ok h numImages rest, List.map_cons]

theorem create_ok {patterns : List TemplatePattern} {imgs : List String}
    (h : patterns ≠ []) :
    create_carousel_from_template patterns imgs =
      Except.ok ((List.range imgs.length).map (pageAt patterns imgs.length)) :=
  buildPages_ok (List.length_pos.mpr h) _ _

theorem create_error {imgs : List String} (h : imgs ≠ []) :
    create_carousel_from_template [] imgs
      = Except.error "list index out of range" := by
  obtain ⟨n, hn⟩ : ∃ n, imgs.length = n + 1 := by
    cases imgs with
    | nil => exact absurd rfl h
    | cons a l => exact ⟨l.length, rfl⟩
  unfold create_carousel_from_template
  rw [hn, List.range_succ_eq_map]
  rfl

theorem create_ok_mem {patterns : List TemplatePattern} {imgs : List String}
    {pages : List CarouselPage}
    (h : create_carousel_from_template patterns imgs = Except.ok pages)
    {p : CarouselPage} (hp : p ∈ pages) :
    1 ≤ patterns.length ∧
      ∃ c, c < imgs.length ∧ p = pageAt patterns imgs.length c := by
  by_cases hpat : patterns = []
  · subst hpat
    by_cases him : imgs = []
    · subst him
      have h0 : create_carousel_from_template ([] : List TemplatePattern) [] =
          Except.ok [] := rfl
      rw [h0] at h
      injection h with h1
      subst h1
      exact absurd hp (List.not_mem_nil p)
    · rw [create_error him] at h
      exact absurd h (by simp)
  · have hlen : 1 ≤ patterns.length := List.length_pos.mpr hpat
    rw [create_ok hpat] at h
    injection h with h1
    subst h1
    rcases List.mem_map.mp hp with ⟨c, hc, rfl⟩
    exact ⟨hlen, c, List.mem_range.mp hc, rfl⟩

theorem placeImages_eq {numImages : Nat} {visible : List Nat}
    (hvis : ∀ x ∈ visible, x < numImages) :
    ∀ (slots : List PictureSlot) (k : Nat),
      placeImages slots k visible numImages =
        (pyRange k (min (k + slots.length) visible.length)).map
          (fun i => (i, visible.getD i 0)) := by
  intro slots
  induction slots with
  | nil =>
    intro k
    simp only [placeImages, List.length_nil, Nat.add_zero, pyRange]
    have h0 : min k visible.length - k = 0 := by omega
    rw [h0]
    rfl
  | cons s rest ih =>
    intro k
    by_cases hk : k < visible.length
    · have hsome : visible[k]? = some visible[k] := List.getElem?_eq_getElem hk
      have hmem : visible[k] ∈ visible := List.getElem_mem hk
      have hlt : visible[k] < numImages := hvis _ hmem
      simp only [placeImages, hsome]
      rw [if_neg (by omega)]
      rw [ih (k + 1)]
      have hm : min (k + (s :: rest).length) visible.length - k
          = (min ((k + 1) + rest.length) visible.length - (k + 1)) + 1 := by
        simp only [List.length_cons]
        omega
      simp only [pyRange]
      rw [hm, List.range'_succ]
      simp only [List.map_cons]
      congr 1
      rw [List.getD_eq_getElem _ _ hk]
    · have hnone : visible[k]? = none := List.getElem?_eq_none (by omega)
      simp only [placeImages, hnone]
      have h0 : min (k + (s :: rest).length) visible.length - k = 0 := by
        simp only [List.length_cons]
        omega
      simp only [pyRange]
      rw [h0]
      rfl

theorem pageAt_visible_lt {patterns : List TemplatePattern} {numImages c : Nat}
    (hc : c < numImages) :
    ∀ x ∈ (pageAt patterns numImages c).visible_range, x < numImages := by
  intro x hx
  rw [pageAt_visible] at hx
  have hb := selectTemplate_range_bounds (K := patterns.length) hc
  have hm := mem_pyRange.mp hx
  omega

theorem getD_map_pyRange0 {f : Nat → Nat × Nat} {m i : Nat} (h : i < m) :
    ((pyRange 0 m).map f).getD i (0, 0) = f i := by
  have hl : i < ((pyRange 0 m).map f).length := by
    rw [List.length_map, length_pyRange]
    omega
  rw [List.getD_eq_getElem _ _ hl, List.getElem_map]
  congr 1
  simp [pyRange]

/-- Claim C2: for every `N ≥ 1` and every non-empty template set, the
selector produces exactly `N` carousel pages, one per source image, whose
`center_index` values are `0, 1, ..., N-1` in that order. -/
theorem claim_C2_one_page_per_image :
    ∀ (patterns : List TemplatePattern) (imgs : List String),
      patterns ≠ [] → 1 ≤ imgs.length →
      (create_carousel_from_template patterns imgs).isOk = true ∧
      ∀ pages, create_carousel_from_template patterns imgs = Except.ok pages →
        pages.length = imgs.length ∧
        pages.map CarouselPage.center_index = List.range imgs.length := by
  intro patterns imgs hpat _
  constructor
  · rw [create_ok hpat]
    rfl
  · intro pages h
    rw [create_ok hpat] at h
    injection h with h1
    subst h1
    refine ⟨by simp, ?_⟩
    rw [List.map_map]
    have hcomp : CarouselPage.center_index ∘ pageAt patterns imgs.length = id := by
      funext c
      rfl
    rw [hcomp, List.map_id]

/-- Witness for C2: concrete five-pattern template set and five images. -/
theorem claim_C2_witness :
    (create_carousel_from_template examplePatterns ["a", "b", "c", "d", "e"]).isOk
        = true ∧
      examplePages.length = 5 ∧
      examplePages.map CarouselPage.center_index = List.range 5 :=
  ⟨(claim_C2_one_page_per_image examplePatterns ["a", "b", "c", "d", "e"]
      (by decide) (by decide)).1,
   (claim_C2_one_page_per_image examplePatterns ["a", "b", "c", "d", "e"]
      (by decide) (by decide)).2 examplePages rfl⟩

/-- Claim C5: for every page produced, `center_index` is contained in the
page's `visible_range` (the claim's side conditions — non-empty range, center
within `[0, N-1]` — hold by construction). -/
theorem claim_C5_center_in_visible :
    ∀ (patterns : List TemplatePattern) (imgs : List String)
      (pages : List CarouselPage),
      create_carousel_from_template patterns imgs = Except.ok pages →
      ∀ p ∈ pages, p.center_index ∈ p.visible_range := by
  intro patterns imgs pages h p hp
  obtain ⟨hK, c, hc, rfl⟩ := create_ok_mem h hp
  rw [pageAt_center, pageAt_visible]
  have hb := selectTemplate_range_bounds (K := patterns.length) hc
  exact mem_pyRange.mpr ⟨hb.1, hb.2.1⟩

/-- Witness for C5 at a concrete page of the example run. -/
theorem claim_C5_witness :
    (⟨3, 3, [1, 2, 3, 4], [(0, 1), (1, 2), (2, 3), (3, 4)]⟩ : CarouselPage).center_index
      ∈ (⟨3, 3, [1, 2, 3, 4], [(0, 1), (1, 2), (2, 3), (3, 4)]⟩ : CarouselPage).visible_range :=
  claim_C5_center_in_visible examplePatterns ["a", "b", "c", "d", "e"] examplePages
    rfl _ (by decide)

/-- Claim C7: for every returned page, `0 ≤ template_index < len(template_set)`. -/
theorem claim_C7_template_index_in_range :
    ∀ (patterns : List TemplatePattern) (imgs : List String)
      (pages : List CarouselPage),
      create_carousel_from_template patterns imgs = Except.ok pages →
      ∀ p ∈ pages, p.template_index < patterns.length := by
  intro patterns imgs pages h p hp
  obtain ⟨hK, c, hc, rfl⟩ := create_ok_mem h hp
  rw [pageAt_template]
  exact selectTemplate_template_lt hK

/-- Witness for C7 at a concrete page of the example run. -/
theorem claim_C7_witness :
    (⟨0, 0, [0, 1, 2], [(0, 0), (1, 1), (2, 2)]⟩ : CarouselPage).template_index
      < examplePatterns.length :=
  claim_C7_template_index_in_range examplePatterns ["a", "b", "c", "d", "e"]
    examplePages rfl _ (by decide)

/-- Claim C8: for an empty source-image sequence and any non-empty template
set, the selector returns an empty page sequence and no error. -/
theorem claim_C8_empty_images :
    ∀ patterns : List TemplatePattern, patterns ≠ [] →
      create_carousel_from_template patterns [] = Except.ok [] := by
  intro patterns _
  rfl

/-- Witness for C8 at the concrete example template set. -/
theorem claim_C8_witness :
    create_carousel_from_template examplePatterns [] = Except.ok [] :=
  claim_C8_empty_images examplePatterns (by decide)

/-- Claim C9: the chosen `template_index` is at most 3 on every page, so
template patterns at index 4 or beyond are never selected. -/
theorem claim_C9_template_index_le_three :
    ∀ (patterns : List TemplatePattern) (imgs : List String)
      (pages : List CarouselPage),
      create_carousel_from_template patterns imgs = Except.ok pages →
      ∀ p ∈ pages, p.template_index ≤ 3 := by
  intro patterns imgs pages h p hp
  obtain ⟨hK, c, hc, rfl⟩ := create_ok_mem h hp
  rw [pageAt_template]
  exact selectTemplate_template_le3 patterns.length imgs.length c

/-- Witness for C9 at a concrete page of the example run (a five-pattern set
where index 4 exists but is never chosen). -/
theorem claim_C9_witness :
    (⟨4, 2, [2, 3, 4], [(0, 2), (1, 3), (2, 4)]⟩ : CarouselPage).template_index ≤ 3 :=
  claim_C9_template_index_le_three examplePatterns ["a", "b", "c", "d", "e"]
    examplePages rfl _ (by decide)

/-- Claim C10: every index of every page's `visible_range` is in bounds for
the source-image list, so the placement loop's bounds guard never skips: the
number of placements equals `min(len(slots), len(visible_range))` with no
index dropped by the guard. -/
theorem claim_C10_visible_indices_in_bounds :
    ∀ (patterns : List TemplatePattern) (imgs : List String)
      (pages : List CarouselPage),
      create_carousel_from_template patterns imgs = Except.ok pages →
      ∀ p ∈ pages,
        (∀ i ∈ p.visible_range, i < imgs.length) ∧
        p.placements.length =
          min (patterns.getD p.template_index []).length p.visible_range.length := by
  intro patterns imgs pages h p hp
  obtain ⟨hK, c, hc, rfl⟩ := create_ok_mem h hp
  refine ⟨pageAt_visible_lt hc, ?_⟩
  rw [pageAt_placements_def, placeImages_eq (pageAt_visible_lt hc),
    List.length_map, length_pyRange, pageAt_template]
  omega

/-- Witness for C10 at a concrete page of the example run, instantiated at
visible index 4. -/
theorem claim_C10_witness :
    (4 : Nat) < (["a", "b", "c", "d", "e"] : List String).length ∧
      (⟨4, 2, [2, 3, 4], [(0, 2), (1, 3), (2, 4)]⟩ : CarouselPage).placements.length =
        min (examplePatterns.getD
            (⟨4, 2, [2, 3, 4], [(0, 2), (1, 3), (2, 4)]⟩ : CarouselPage).template_index []).length
          (⟨4, 2, [2, 3, 4], [(0, 2), (1, 3), (2, 4)]⟩ : CarouselPage).visible_range.length :=
  ⟨(claim_C10_visible_indices_in_bounds examplePatterns ["a", "b", "c", "d", "e"]
      examplePages rfl ⟨4, 2, [2, 3, 4], [(0, 2), (1, 3), (2, 4)]⟩ (by decide)).1 4 (by decide),
   (claim_C10_visible_indices_in_bounds examplePatterns ["a", "b", "c", "d", "e"]
      examplePages rfl ⟨4, 2, [2, 3, 4], [(0, 2), (1, 3), (2, 4)]⟩ (by decide)).2⟩

/-- Claim C1: for every `N ≥ 1`, every non-empty template set of `K` patterns
and every center index `c < N`, the page produced for `c` carries the
`template_index` and `visible_range` given by the five-row policy table
(first match from the top), and in particular for `N = 5`, `K = 5` the five
pages get templates `0, 1, 2, 3, 2` with ranges `[0,3)`, `[0,4)`, `[0,5)`,
`[1,5)`, `[2,5)`. -/
theorem claim_C1_policy_table :
    (∀ (patterns : List TemplatePattern) (imgs : List String)
        (pages : List CarouselPage) (c : Nat),
        create_carousel_from_template patterns imgs = Except.ok pages →
        c < imgs.length →
        ((pages.getD c default).template_index : Int)
            = (specPolicyRow patterns.length imgs.length c).1 ∧
          (pages.getD c default).visible_range
            = pyRange (specPolicyRow patterns.length imgs.length c).2.1.toNat
                (specPolicyRow patterns.length imgs.length c).2.2.toNat) ∧
      Except.map (List.map fun p => (p.template_index, p.visible_range))
          (create_carousel_from_template examplePatterns ["a", "b", "c", "d", "e"])
        = Except.ok [(0, [0, 1, 2]), (1, [0, 1, 2, 3]), (2, [0, 1, 2, 3, 4]),
            (3, [1, 2, 3, 4]), (2, [2, 3, 4])] := by
  constructor
  · intro patterns imgs pages c h hc
    have hpat : patterns ≠ [] := by
      rintro rfl
      have him : imgs ≠ [] := by
        intro h0
        rw [h0] at hc
        exact absurd hc (by simp)
      rw [create_error him] at h
      exact Except.noConfusion h
    have hK : 1 ≤ patterns.length := List.length_pos.mpr hpat
    rw [create_ok hpat] at h
    injection h with h1
    subst h1
    have hl : c < ((List.range imgs.length).map (pageAt patterns imgs.length)).length := by
      simpa using hc
    have hgd : ((List.range imgs.length).map (pageAt patterns imgs.length)).getD c default
        = pageAt patterns imgs.length c := by
      rw [List.getD_eq_getElem _ _ hl, List.getElem_map, List.getElem_range]
    rw [hgd, pageAt_template, pageAt_visible]
    obtain ⟨e1, e2, e3⟩ := selectTemplate_eq_specPolicyRow hK hc
    have ha : (selectTemplate patterns.length imgs.length c).2.1
        = (specPolicyRow patterns.length imgs.length c).2.1.toNat := by omega
    have hb : (selectTemplate patterns.length imgs.length c).2.2
        = (specPolicyRow patterns.length imgs.length c).2.2.toNat := by omega
    exact ⟨e1, by rw [ha, hb]⟩
  · rfl

/-- Witness for C1: the policy table evaluated for the page centering image 3
of the example run (`N = 5`, `K = 5`). -/
theorem claim_C1_witness :
    ((examplePages.getD 3 default).template_index : Int)
        = (specPolicyRow examplePatterns.length 5 3).1 ∧
      (examplePages.getD 3 default).visible_range
        = pyRange (specPolicyRow examplePatterns.length 5 3).2.1.toNat
            (specPolicyRow examplePatterns.length 5 3).2.2.toNat :=
  claim_C1_policy_table.1 examplePatterns ["a", "b", "c", "d", "e"] examplePages 3
    rfl (by decide)

/-- Claim C3 counterexample: a template set whose single pattern has zero
picture slots is accepted, not rejected — the selector succeeds and returns a
page with no placed images, contradicting the claim that an error is raised
exactly when the template set is empty or some pattern has zero slots. -/
theorem claim_C3_counterexample :
    create_carousel_from_template [[]] ["img"]
      = Except.ok [⟨0, 0, [0], []⟩] := rfl

/-- Claim C3 amended: the selector fails (with an index error, emitting no
pages) exactly when the template set is empty and there is at least one
source image; a template pattern with zero picture slots is not rejected and
yields pages with no placements. -/
theorem claim_C3_amended :
    ∀ (patterns : List TemplatePattern) (imgs : List String),
      (∃ e, create_carousel_from_template patterns imgs = Except.error e) ↔
        (patterns = [] ∧ imgs ≠ []) := by
  intro patterns imgs
  constructor
  · rintro ⟨e, he⟩
    by_cases hpat : patterns = []
    · subst hpat
      refine ⟨rfl, ?_⟩
      rintro rfl
      rw [show create_carousel_from_template ([] : List TemplatePattern) []
          = Except.ok [] from rfl] at he
      exact Except.noConfusion he
    · rw [create_ok hpat] at he
      exact Except.noConfusion he
  · rintro ⟨rfl, him⟩
    exact ⟨_, create_error him⟩

/-- Claim C4 counterexample: with a single template pattern (`K = 1`) and six
images, the page centering image 1 takes the tail fallback and gets
`visible_range = [0, 6)` of width 6 — not a window of width 3 to 5. -/
theorem claim_C4_counterexample :
    (((create_carousel_from_template [[]] ["a", "b", "c", "d", "e", "f"]).toOption.getD
          []).getD 1 default).visible_range = [0, 1, 2, 3, 4, 5] ∧
      ¬((((create_carousel_from_template [[]]
          ["a", "b", "c", "d", "e", "f"]).toOption.getD
          []).getD 1 default).visible_range.length ≤ 5) := by
  exact ⟨rfl, by decide⟩

/-- Claim C4 amended: every page's `visible_range` is a contiguous window of
source-image indices within `[0, N-1]`, of width between `min(3, N)` and 5,
except in the single degenerate case `c = 1` with `K = 1` (which no row of
the policy table matches): there the tail fallback yields the full window
`[0, N)` of width `N`. -/
theorem claim_C4_amended :
    ∀ (patterns : List TemplatePattern) (imgs : List String)
      (pages : List CarouselPage),
      create_carousel_from_template patterns imgs = Except.ok pages →
      ∀ p ∈ pages,
        contiguousList p.visible_range ∧
        (∀ i ∈ p.visible_range, i < imgs.length) ∧
        (¬(p.center_index = 1 ∧ patterns.length = 1) →
          min 3 imgs.length ≤ p.visible_range.length ∧
            p.visible_range.length ≤ 5) ∧
        ((p.center_index = 1 ∧ patterns.length = 1) →
          p.visible_range = pyRange 0 imgs.length) := by
  intro patterns imgs pages h p hp
  obtain ⟨hK, c, hc, rfl⟩ := create_ok_mem h hp
  refine ⟨?_, pageAt_visible_lt hc, ?_, ?_⟩
  · rw [pageAt_visible]
    exact contiguous_pyRange _ _
  · intro hdeg
    rw [pageAt_center] at hdeg
    rw [pageAt_visible, length_pyRange]
    exact selectTemplate_width hK hc hdeg
  · rintro ⟨h1, h2⟩
    rw [pageAt_center] at h1
    rw [pageAt_visible]
    obtain ⟨hlo, hhi⟩ := selectTemplate_degenerate (N := imgs.length) h1 h2
    rw [hlo, hhi]

/-- Witness for C4 (amended) at the middle page of the example run. -/
theorem claim_C4_witness :
    contiguousList
        (⟨2, 2, [0, 1, 2, 3, 4], [(0, 0), (1, 1), (2, 2), (3, 3), (4, 4)]⟩ :
          CarouselPage).visible_range ∧
      (min 3 (["a", "b", "c", "d", "e"] : List String).length
          ≤ (⟨2, 2, [0, 1, 2, 3, 4], [(0, 0), (1, 1), (2, 2), (3, 3), (4, 4)]⟩ :
            CarouselPage).visible_range.length ∧
        (⟨2, 2, [0, 1, 2, 3, 4], [(0, 0), (1, 1), (2, 2), (3, 3), (4, 4)]⟩ :
          CarouselPage).visible_range.length ≤ 5) :=
  ⟨(claim_C4_amended examplePatterns ["a", "b", "c", "d", "e"] examplePages rfl
      ⟨2, 2, [0, 1, 2, 3, 4], [(0, 0), (1, 1), (2, 2), (3, 3), (4, 4)]⟩
      (by decide)).1,
   (claim_C4_amended examplePatterns ["a", "b", "c", "d", "e"] examplePages rfl
      ⟨2, 2, [0, 1, 2, 3, 4], [(0, 0), (1, 1), (2, 2), (3, 3), (4, 4)]⟩
      (by decide)).2.2.1 (by decide)⟩

/-- Claim C6: on every page, the number of images placed equals
`min(len(slots of the chosen pattern), len(visible_range))`, and slot `i`
receives the source image at `visible_range[i]`; excess slots stay empty and
excess visible images are dropped. -/
theorem claim_C6_positional_placement :
    ∀ (patterns : List TemplatePattern) (imgs : List String)
      (pages : List CarouselPage),
      create_carousel_from_template patterns imgs = Except.ok pages →
      ∀ p ∈ pages,
        p.placements.length =
          min (patterns.getD p.template_index []).length p.visible_range.length ∧
        ∀ i, i < p.placements.length →
          p.placements.getD i (0, 0) = (i, p.visible_range.getD i 0) := by
  intro patterns imgs pages h p hp
  obtain ⟨hK, c, hc, rfl⟩ := create_ok_mem h hp
  have hrw : (pageAt patterns imgs.length c).placements =
      (pyRange 0 (min
          (0 + (patterns.getD (pageAt patterns imgs.length c).template_index []).length)
          (pageAt patterns imgs.length c).visible_range.length)).map
        (fun i => (i, (pageAt patterns imgs.length c).visible_range.getD i 0)) := by
    rw [pageAt_placements_def, placeImages_eq (pageAt_visible_lt hc), pageAt_template]
  have hlen : (pageAt patterns imgs.length c).placements.length =
      min (patterns.getD (pageAt patterns imgs.length c).template_index []).length
        (pageAt patterns imgs.length c).visible_range.length := by
    rw [hrw, List.length_map, length_pyRange]
    omega
  refine ⟨hlen, ?_⟩
  intro i hi
  rw [hlen] at hi
  rw [hrw]
  exact getD_map_pyRange0 (by omega)

/-- Witness for C6 at the page centering image 3 of the example run
(4 visible images paired with the first 4 of 5 slots), instantiated at
slot 2. -/
theorem claim_C6_witness :
    (⟨3, 3, [1, 2, 3, 4], [(0, 1), (1, 2), (2, 3), (3, 4)]⟩ :
        CarouselPage).placements.length =
      min (examplePatterns.getD
          (⟨3, 3, [1, 2, 3, 4], [(0, 1), (1, 2), (2, 3), (3, 4)]⟩ :
            CarouselPage).template_index []).length
        (⟨3, 3, [1, 2, 3, 4], [(0, 1), (1, 2), (2, 3), (3, 4)]⟩ :
          CarouselPage).visible_range.length ∧
      (⟨3, 3, [1, 2, 3, 4], [(0, 1), (1, 2), (2, 3), (3, 4)]⟩ :
          CarouselPage).placements.getD 2 (0, 0) =
        (2, (⟨3, 3, [1, 2, 3, 4], [(0, 1), (1, 2), (2, 3), (3, 4)]⟩ :
          CarouselPage).visible_range.getD 2 0) :=
  ⟨(claim_C6_positional_placement examplePatterns ["a", "b", "c", "d", "e"]
      examplePages rfl ⟨3, 3, [1, 2, 3, 4], [(0, 1), (1, 2), (2, 3), (3, 4)]⟩
      (by decide)).1,
   (claim_C6_positional_placement examplePatterns ["a", "b", "c", "d", "e"]
      examplePages rfl ⟨3, 3, [1, 2, 3, 4], [(0, 1), (1, 2), (2, 3), (3, 4)]⟩
      (by decide)).2 2 (by decide)⟩
